import Mathlib

/-!
Verification of the Stock-market-analyzer repository's sentiment ingestion
and aggregation engine, shallowly embedded in Lean 4.

Sources embedded here:
* `src/pipeline/main.py` — `Pipeline` (filter, scoring, run).
* `src/serverless/main_hardened_with_sentiment.py` —
  `NewsPipelineHardenedWithSentiment` (validation, dedup filter, run).
* `src/analytics/main.py` and `src/serverless/daily_analytics_hardened.py` —
  the batched daily aggregation scanner.
* `src/serverless/sentiment_analytics.py` — rolling sentiment aggregator.
* `src/serverless/market_data_api_hardened.py` and `src/marketdata/main.py` —
  the Redis-backed stale-while-revalidate cache layer.

Modelling conventions: Python strings are Lean `String`s (the repository's
comparisons and case folds are on ASCII data, so `Char.toLower` models
`str.lower`); Python float arithmetic on sentiment averages is modelled
exactly over `ℚ` (the averages are quotients of small integers);
`firestore.SERVER_TIMESTAMP` is a write-time sentinel and is not a field of
the pure records; operations that can raise are modelled with `Except` or
`Option` parameters describing the external outcome.
-/

/-- Model of Python `str.lower` for the ASCII data this repository compares
(`Char.toLower` lower-cases exactly the ASCII uppercase letters). -/
def pyLower (s : String) : String :=
  String.mk (s.data.map Char.toLower)

/-- The fixed 10-sector allow-list, `SECTORS` in `src/analytics/main.py`,
`src/serverless/daily_analytics_hardened.py` and
`src/serverless/sentiment_analytics.py` (same list in each file). -/
def SECTORS : List String :=
  ["IT", "Banking", "Pharma", "Auto", "FMCG",
   "Energy", "Metals", "Real Estate", "Telecom", "Power"]

namespace Pipeline

/-- Embeds `Pipeline._sentiment_to_score` (src/pipeline/main.py lines 153-159):
lower-case the label, map positive to 1, negative to -1, anything else to 0.
(`(s or '').lower()` on an actual string is just `s.lower()`.) -/
def sentiment_to_score (s : String) : Int :=
  if pyLower s = "positive" then 1
  else if pyLower s = "negative" then -1
  else 0

end Pipeline

namespace DailyAnalytics

/-- Embeds `DailyAnalytics._sentiment_to_score` (src/analytics/main.py lines 31-37). -/
def sentiment_to_score (s : String) : Int :=
  if pyLower s = "positive" then 1
  else if pyLower s = "negative" then -1
  else 0

end DailyAnalytics

namespace DailyAnalyticsHardened

/-- Embeds `DailyAnalyticsHardened._sentiment_to_score`
(src/serverless/daily_analytics_hardened.py lines 46-54). -/
def sentiment_to_score (s : String) : Int :=
  if pyLower s = "positive" then 1
  else if pyLower s = "negative" then -1
  else 0

end DailyAnalyticsHardened

namespace SentimentAnalytics

/-- Embeds `SentimentAnalytics._sentiment_to_score`
(src/serverless/sentiment_analytics.py lines 139-147). -/
def sentiment_to_score (s : String) : Int :=
  if pyLower s = "positive" then 1
  else if pyLower s = "negative" then -1
  else 0

end SentimentAnalytics

section ScoreFacts

theorem score_variants_agree (s : String) :
    DailyAnalytics.sentiment_to_score s = Pipeline.sentiment_to_score s ∧
    DailyAnalyticsHardened.sentiment_to_score s = Pipeline.sentiment_to_score s ∧
    SentimentAnalytics.sentiment_to_score s = Pipeline.sentiment_to_score s :=
  ⟨rfl, rfl, rfl⟩

theorem score_mem (s : String) :
    Pipeline.sentiment_to_score s = 1 ∨ Pipeline.sentiment_to_score s = -1 ∨
    Pipeline.sentiment_to_score s = 0 := by
  unfold Pipeline.sentiment_to_score
  split
  · exact Or.inl rfl
  · split
    · exact Or.inr (Or.inl rfl)
    · exact Or.inr (Or.inr rfl)

theorem score_abs_le_one (s : String) :
    -1 ≤ Pipeline.sentiment_to_score s ∧ Pipeline.sentiment_to_score s ≤ 1 := by
  rcases score_mem s with h | h | h <;> rw [h] <;> exact ⟨by norm_num, by norm_num⟩

end ScoreFacts

/-- Model of Python `str.upper` for ASCII data (used by the ticker validators). -/
def pyUpper (s : String) : String :=
  String.mk (s.data.map Char.toUpper)

/-- Model of Python `str.strip`: drop leading and trailing whitespace. -/
def pyStrip (s : String) : String :=
  String.mk (((s.data.dropWhile Char.isWhitespace).reverse.dropWhile Char.isWhitespace).reverse)

/-- A candidate article as decoded from the completion-service JSON payload:
the keyword arguments handed to `ArticleModel` in both pipeline variants. -/
structure RawArticle where
  headline : String
  source : String
  url : String
  summary : String
  sentiment : String
  tickers : List String
  sectors : List String
deriving DecidableEq

/-- Model of the pydantic regex constraint on `ArticleModel.url`:
the pattern `^https?://.+` accepts a string beginning with `http://` or
`https://` followed by at least one character. -/
def url_matches (url : String) : Bool :=
  ("http://".data.isPrefixOf url.data && decide (7 < url.data.length)) ||
  ("https://".data.isPrefixOf url.data && decide (8 < url.data.length))

namespace NewsPipelineHardenedWithSentiment

/-- Embeds the `validate_tickers` validator of `ArticleModel`
(src/serverless/main_hardened_with_sentiment.py lines 53-56):
keep tickers whose strip is non-empty, upper-case and strip each. -/
def validate_tickers (v : List String) : List String :=
  (v.filter (fun ticker => pyStrip ticker ≠ "")).map (fun ticker => pyStrip (pyUpper ticker))

/-- Embeds the `validate_sectors` validator of `ArticleModel`
(src/serverless/main_hardened_with_sentiment.py lines 58-65):
strip each entry, keep those in the fixed allow-list, deduplicate
(`list(set(...))`; Python set order is unspecified, modelled as first-occurrence
deduplication). -/
def validate_sectors (v : List String) : List String :=
  ((v.map pyStrip).filter (fun sector => sector ∈ SECTORS)).dedup

/-- Embeds the field constraints of `ArticleModel`
(src/serverless/main_hardened_with_sentiment.py lines 43-65): length windows on
headline, source and summary, the URL regex, the closed `SentimentEnum`, and the
`max_items` bounds; on success the ticker and sector validators are applied.
Pydantic raises a `ValidationError` on any violated constraint, modelled as
`none`. -/
def ArticleModel_validate (a : RawArticle) : Option RawArticle :=
  if 1 ≤ a.headline.length ∧ a.headline.length ≤ 500 ∧
     1 ≤ a.source.length ∧ a.source.length ≤ 100 ∧
     url_matches a.url = true ∧
     10 ≤ a.summary.length ∧ a.summary.length ≤ 1000 ∧
     (a.sentiment = "Positive" ∨ a.sentiment = "Negative" ∨ a.sentiment = "Neutral") ∧
     a.tickers.length ≤ 20 ∧ a.sectors.length ≤ 10 then
    some { a with tickers := validate_tickers a.tickers,
                  sectors := validate_sectors a.sectors }
  else
    none

/-- Validation of the article list inside `ArticleListModel`: pydantic validates
every item and raises if any single item fails, so the whole list validates to
`none` as soon as one element does. -/
def validate_article_list : List RawArticle → Option (List RawArticle)
  | [] => some []
  | a :: rest =>
    match ArticleModel_validate a, validate_article_list rest with
    | some v, some vs => some (v :: vs)
    | _, _ => none

/-- Embeds `NewsPipelineHardenedWithSentiment._parse_and_validate_response`
(src/serverless/main_hardened_with_sentiment.py lines 232-265), after JSON
decoding: `ArticleListModel(**raw_data)` validates the whole batch
(`max_items=50`); any pydantic failure is caught and the method returns the
empty list. -/
def parse_and_validate_response (articles : List RawArticle) : List RawArticle :=
  if articles.length ≤ 50 then
    match validate_article_list articles with
    | some validated => validated
    | none => []
  else []

/-- Embeds `NewsPipelineHardenedWithSentiment._filter_new_articles`
(src/serverless/main_hardened_with_sentiment.py lines 267-282): keep articles
whose url is truthy and not in the loaded url set. The set is not updated
inside the loop. -/
def filter_new_articles (existing_urls : List String) : List RawArticle → List RawArticle
  | [] => []
  | article :: rest =>
    if article.url ≠ "" ∧ article.url ∉ existing_urls then
      article :: filter_new_articles existing_urls rest
    else
      filter_new_articles existing_urls rest

/-- Embeds `NewsPipelineHardenedWithSentiment._load_existing_urls`
(src/serverless/main_hardened_with_sentiment.py lines 126-145): on a successful
24-hour range query the projected url set is returned; any exception is caught
and the set starts empty. -/
def load_existing_urls (query_result : Except String (List String)) : List String :=
  match query_result with
  | .ok urls => urls
  | .error _ => []

end NewsPipelineHardenedWithSentiment

namespace Pipeline

/-- Embeds the `v_tickers` validator of the pipeline variant `ArticleModel`
(src/pipeline/main.py lines 49-51): keep truthy entries, upper-case and strip. -/
def v_tickers (v : List String) : List String :=
  (v.filter (fun t => t ≠ "")).map (fun t => pyStrip (pyUpper t))

/-- Embeds the `v_sectors` validator of the pipeline variant `ArticleModel`
(src/pipeline/main.py lines 53-56). -/
def v_sectors (v : List String) : List String :=
  ((v.map pyStrip).filter (fun s => s ∈ SECTORS)).dedup

/-- Embeds the field constraints of the pipeline variant `ArticleModel`
(src/pipeline/main.py lines 40-56); identical constraint set to the hardened
variant, with its own ticker validator. -/
def ArticleModel_validate (a : RawArticle) : Option RawArticle :=
  if 1 ≤ a.headline.length ∧ a.headline.length ≤ 500 ∧
     1 ≤ a.source.length ∧ a.source.length ≤ 100 ∧
     url_matches a.url = true ∧
     10 ≤ a.summary.length ∧ a.summary.length ≤ 1000 ∧
     (a.sentiment = "Positive" ∨ a.sentiment = "Negative" ∨ a.sentiment = "Neutral") ∧
     a.tickers.length ≤ 20 ∧ a.sectors.length ≤ 10 then
    some { a with tickers := v_tickers a.tickers, sectors := v_sectors a.sectors }
  else
    none

/-- List-level validation for the pipeline variant `ArticleListModel`. -/
def validate_article_list : List RawArticle → Option (List RawArticle)
  | [] => some []
  | a :: rest =>
    match ArticleModel_validate a, validate_article_list rest with
    | some v, some vs => some (v :: vs)
    | _, _ => none

/-- Embeds `Pipeline.fetch_and_analyze` (src/pipeline/main.py lines 114-129)
after the generative call: the response either failed (exception, re-raised
after the retry decorator gives up) or produced a JSON list; then
`ArticleListModel(**data)` raises on any invalid item or an over-long list,
and that exception propagates to the caller. -/
def fetch_and_analyze (response : Except String (List RawArticle)) :
    Except String (List RawArticle) :=
  match response with
  | .error e => .error e
  | .ok raw =>
    if raw.length ≤ 50 then
      match validate_article_list raw with
      | some validated => .ok validated
      | none => .error "ValidationError"
    else .error "ValidationError"

/-- Embeds `Pipeline._filter_new` (src/pipeline/main.py lines 131-137):
same filtering as the hardened variant; the set is not updated in the loop. -/
def filter_new (existing_urls : List String) : List RawArticle → List RawArticle
  | [] => []
  | a :: rest =>
    if a.url ≠ "" ∧ a.url ∉ existing_urls then
      a :: filter_new existing_urls rest
    else
      filter_new existing_urls rest

end Pipeline

/-- The stats object accumulated by `Pipeline.run` (src/pipeline/main.py
line 182). The `execution_time_seconds`-style wall-clock fields of the hardened
variant are not part of the pure model. -/
structure PipelineStats where
  fetched : Nat
  new_articles : Nat
  saved : Nat
  errors : Nat
deriving DecidableEq

namespace Pipeline

/-- Embeds `Pipeline.run` (src/pipeline/main.py lines 181-195). The try block
runs `_load_existing_urls` (no try/except of its own, so a failing 24-hour
query raises here), then `fetch_and_analyze`, `_filter_new`, `_batch_save` and
the realtime-sentiment update; any exception lands in the except branch, which
increments `errors` and returns the stats accumulated so far. `_batch_save`
commits one batch write and returns the number of articles handed to it
(the store write is assumed to succeed; its own failure path is not at issue
in the claims). -/
def run (load_result : Except String (List String))
    (response : Except String (List RawArticle)) : PipelineStats :=
  match load_result with
  | .error _ => { fetched := 0, new_articles := 0, saved := 0, errors := 1 }
  | .ok existing_urls =>
    match fetch_and_analyze response with
    | .error _ => { fetched := 0, new_articles := 0, saved := 0, errors := 1 }
    | .ok articles =>
      let new_articles := filter_new existing_urls articles
      { fetched := articles.length,
        new_articles := new_articles.length,
        saved := new_articles.length,
        errors := 0 }

end Pipeline

/-- The stats object of `NewsPipelineHardenedWithSentiment.run`
(src/serverless/main_hardened_with_sentiment.py lines 402-410), without the
wall-clock and sentiment-flag bookkeeping fields. -/
structure HardenedStats where
  fetched : Nat
  new_articles : Nat
  analyzed : Nat
  saved : Nat
  errors : Nat
deriving DecidableEq

namespace NewsPipelineHardenedWithSentiment

/-- Embeds `NewsPipelineHardenedWithSentiment.run`
(src/serverless/main_hardened_with_sentiment.py lines 398-459):
`_load_existing_urls` absorbs its own failure (empty set), a failed generative
call propagates out of `fetch_and_analyze_articles` and is caught by the
run-level except (errors incremented), a validation failure inside
`_parse_and_validate_response` yields the empty article list and the run
returns early, otherwise the new articles are filtered, batch-saved and
counted. -/
def run (load_result : Except String (List String))
    (response : Except String (List RawArticle)) : HardenedStats :=
  let existing_urls := load_existing_urls load_result
  match response with
  | .error _ => { fetched := 0, new_articles := 0, analyzed := 0, saved := 0, errors := 1 }
  | .ok raw =>
    let articles := parse_and_validate_response raw
    if articles.isEmpty then
      { fetched := articles.length, new_articles := 0, analyzed := 0, saved := 0, errors := 0 }
    else
      let new_articles := filter_new_articles existing_urls articles
      { fetched := articles.length,
        new_articles := new_articles.length,
        analyzed := new_articles.length,
        saved := new_articles.length,
        errors := 0 }

end NewsPipelineHardenedWithSentiment

/-- An entry at the single cache key of the Redis backend, as written by
`SETEX key ttl value`: the value together with its write time and
time-to-live. -/
structure RedisEntry where
  value : String
  storedAt : Nat
  ttl : Nat
deriving DecidableEq

/-- The state of the Redis backend at the one cache key `market_data`. -/
abbrev RedisState := Option RedisEntry

/-- Model of Redis `SETEX key ttl value`: store the value and arm the
key-level expiry, replacing any previous entry at the key. -/
def redis_setex (now ttl : Nat) (value : String) : RedisState :=
  some { value := value, storedAt := now, ttl := ttl }

/-- Model of Redis `GET key` on a key written by `SETEX`: Redis evicts the key
once its time-to-live has elapsed, so the value comes back only while
`now < storedAt + ttl`; afterwards `GET` returns nil exactly as for an absent
key. -/
def redis_get (st : RedisState) (now : Nat) : Option String :=
  match st with
  | some e => if now < e.storedAt + e.ttl then some e.value else none
  | none => none

namespace MarketDataAPIHardened

/-- Constant `CACHE_TTL_SECONDS` (src/serverless/market_data_api_hardened.py
line 47). -/
def CACHE_TTL_SECONDS : Nat := 300

/-- Embeds `MarketDataAPIHardened._get_cached_data`
(src/serverless/market_data_api_hardened.py lines 121-140): a plain
`redis_client.get(CACHE_KEY)`. -/
def get_cached_data (st : RedisState) (now : Nat) : Option String :=
  redis_get st now

/-- Embeds `MarketDataAPIHardened._save_cached_data`
(src/serverless/market_data_api_hardened.py lines 142-158):
`redis_client.setex(CACHE_KEY, CACHE_TTL_SECONDS, json_data)`. -/
def save_cached_data (now : Nat) (market_data : String) : RedisState :=
  redis_setex now CACHE_TTL_SECONDS market_data

/-- Embeds `MarketDataAPIHardened._get_stale_data`
(src/serverless/market_data_api_hardened.py lines 160-178): the body performs
the same `redis_client.get(CACHE_KEY)` as `_get_cached_data`; there is no
separate no-TTL store to consult, so an entry the backend has already evicted
cannot be recovered here. -/
def get_stale_data (st : RedisState) (now : Nat) : Option String :=
  redis_get st now

/-- The three service tiers of the response of
`MarketDataAPIHardened.get_market_data`: fresh payload, stale payload carrying
the outdated-data warning, or the service-unavailable error object. -/
inductive MarketResult
  | fresh (value : String)
  | stale (value : String)
  | unavailable
deriving DecidableEq

/-- Embeds `MarketDataAPIHardened.get_market_data`
(src/serverless/market_data_api_hardened.py lines 324-360). `fetch_fresh` is
the outcome `fetch_fresh_data` would produce if invoked (`none` = failure).
The returned triple is the response, the backend state after the call, and
whether the upstream fetcher was invoked. -/
def get_market_data (st : RedisState) (now : Nat) (fetch_fresh : Option String) :
    MarketResult × RedisState × Bool :=
  match get_cached_data st now with
  | some cached => (.fresh cached, st, false)
  | none =>
    match fetch_fresh with
    | some fresh_data => (.fresh fresh_data, save_cached_data now fresh_data, true)
    | none =>
      match get_stale_data st now with
      | some stale_data => (.stale stale_data, st, true)
      | none => (.unavailable, st, true)

end MarketDataAPIHardened

/-- A stored article document as the aggregators read it back from the
`articles` collection. The Python code accesses the fields defensively
(`data.get('sentiment', 'Neutral')`, `data.get('sectors') or []`), so the
sentiment is optional here and defaulted at the access site. `publishedAt`
is modelled as a numeric instant. -/
structure StoredArticle where
  sentiment : Option String
  sectors : List String
  publishedAt : Nat
deriving DecidableEq

/-- Insert into a list sorted ascending by `publishedAt`, after existing equal
keys (stable, as the ordered Firestore scan is). -/
def insert_by_published (a : StoredArticle) : List StoredArticle → List StoredArticle
  | [] => [a]
  | b :: rest =>
    if a.publishedAt < b.publishedAt then a :: b :: rest
    else b :: insert_by_published a rest

/-- Ascending stable sort by `publishedAt`, modelling the
`order_by('publishedAt')` clause of the range query. -/
def sort_by_published : List StoredArticle → List StoredArticle
  | [] => []
  | a :: rest => insert_by_published a (sort_by_published rest)

/-- Arithmetic mean of a list of integer scores, as a rational. Python computes
`sum(scores) / len(scores)` in floating point; the quotient of these small
integers is modelled exactly over `ℚ`. -/
def listMean (l : List Int) : ℚ :=
  (l.sum : ℚ) / (l.length : ℚ)

/-- Round to the nearest integer, ties to even: the rounding mode of Python 3
`round`. -/
def round_half_even (x : ℚ) : ℤ :=
  if x - ⌊x⌋ < 1/2 then ⌊x⌋
  else if 1/2 < x - ⌊x⌋ then ⌊x⌋ + 1
  else if 2 ∣ ⌊x⌋ then ⌊x⌋ else ⌊x⌋ + 1

/-- Model of Python `round(x, 3)`: round `x * 1000` half-to-even and scale
back. -/
def py_round3 (x : ℚ) : ℚ :=
  (round_half_even (x * 1000) : ℚ) / 1000

namespace DailyAnalyticsHardened

/-- Constant `self.batch_size` (src/serverless/daily_analytics_hardened.py
line 44); `src/analytics/main.py` line 29 uses the same value. -/
def batch_size : Nat := 1000

/-- Appends the score once per allow-listed sector tag of one article: the
inner loop of `_process_article_batch`
(src/serverless/daily_analytics_hardened.py lines 71-74). The running
per-sector score lists are the `defaultdict(list)` `sector_scores`, modelled
as a total map from sector name to its list. -/
def append_sector_scores : List String → Int → (String → List Int) → (String → List Int)
  | [], _, sector_scores => sector_scores
  | sector :: rest, score, sector_scores =>
    if sector ∈ SECTORS then
      append_sector_scores rest score
        (fun s => if s = sector then sector_scores s ++ [score] else sector_scores s)
    else
      append_sector_scores rest score sector_scores

/-- Embeds `DailyAnalyticsHardened._process_article_batch`
(src/serverless/daily_analytics_hardened.py lines 56-74): for each document of
the page, score its sentiment (defaulted to Neutral when absent), append the
score to the overall list and to each tagged allow-listed sector list. -/
def process_article_batch :
    List StoredArticle → List Int × (String → List Int) → List Int × (String → List Int)
  | [], acc => acc
  | article :: rest, (overall_scores, sector_scores) =>
    let score := sentiment_to_score (article.sentiment.getD "Neutral")
    process_article_batch rest
      (overall_scores ++ [score], append_sector_scores article.sectors score sector_scores)

/-- Embeds the cursor-paginated while loop of
`calculate_daily_analytics_batched`
(src/serverless/daily_analytics_hardened.py lines 107-138). `remaining` is the
publishedAt-ordered tail of the range-query result that the current cursor
position exposes; each iteration streams one page of at most `page_size`
documents, folds it, advances the cursor past the page, and stops on an empty
page or a short page. The result carries the accumulator, the article total
and the number of page queries issued. -/
def scan_loop (page_size : Nat) (remaining : List StoredArticle)
    (acc : List Int × (String → List Int)) (total_articles queries : Nat) :
    (List Int × (String → List Int)) × Nat × Nat :=
  if (remaining.take page_size).isEmpty then (acc, total_articles, queries + 1)
  else
    let acc2 := process_article_batch (remaining.take page_size) acc
    let total2 := total_articles + (remaining.take page_size).length
    if (remaining.take page_size).length < page_size then (acc2, total2, queries + 1)
    else scan_loop page_size (remaining.drop page_size) acc2 total2 (queries + 1)
termination_by remaining.length
decreasing_by
  rename_i hne hfull
  have hrem : remaining ≠ [] := by
    intro h
    subst h
    simp at hne
  have hp : 0 < page_size := by
    rcases Nat.eq_zero_or_pos page_size with h0 | h
    · subst h0
      simp at hne
    · exact h
  simp only [List.length_drop]
  exact Nat.sub_lt (List.length_pos.mpr hrem) hp

end DailyAnalyticsHardened

/-- The daily analytics record written to `sentiment_history`. `lastUpdated`
is the `firestore.SERVER_TIMESTAMP` write-time sentinel, which is identical in
every returned record and resolved only by the store, so it is not a field of
the pure model; `processingTime` and `batchesProcessed` are present only on
the non-empty success path of the hardened variant, and `note` and `error`
only on the empty-day and failure paths respectively. -/
structure DailyRecord where
  date : String
  overallSentimentScore : ℚ
  articlesAnalyzed : Nat
  sectorBreakdown : List (String × ℚ)
  processingTime : Option String
  batchesProcessed : Option Nat
  note : Option String
  error : Option String
deriving DecidableEq

namespace DailyAnalyticsHardened

/-- Embeds `DailyAnalyticsHardened._create_empty_daily_record`
(src/serverless/daily_analytics_hardened.py lines 180-189). -/
def create_empty_daily_record (date : String) : DailyRecord :=
  { date := date
    overallSentimentScore := 0
    articlesAnalyzed := 0
    sectorBreakdown := SECTORS.map (fun sector => (sector, 0))
    processingTime := none
    batchesProcessed := none
    note := some "No articles found for this date"
    error := none }

/-- Embeds the except branch of `calculate_daily_analytics_batched`
(src/serverless/daily_analytics_hardened.py lines 169-178): any error during
the scan aborts the aggregation and yields this zero-valued record with the
error marker. -/
def error_daily_record (date message : String) : DailyRecord :=
  { date := date
    overallSentimentScore := 0
    articlesAnalyzed := 0
    sectorBreakdown := SECTORS.map (fun sector => (sector, 0))
    processingTime := none
    batchesProcessed := none
    note := none
    error := some message }

/-- Embeds the success path of
`DailyAnalyticsHardened.calculate_daily_analytics_batched`
(src/serverless/daily_analytics_hardened.py lines 76-167). The range query
filters the store to `start_time ≤ publishedAt < end_time` ordered ascending,
the paginated loop folds the pages, and the finalization computes the rounded
overall mean and the fixed 10-sector breakdown. `processing_now` is the
`datetime.utcnow().isoformat()` string stamped into `processingTime`. -/
def calculate_daily_analytics_batched (store : List StoredArticle)
    (target_date : String) (start_time end_time : Nat)
    (processing_now : String) : DailyRecord :=
  let matching := sort_by_published
    (store.filter (fun a => start_time ≤ a.publishedAt ∧ a.publishedAt < end_time))
  let scanned := scan_loop batch_size matching ([], fun _ => []) 0 0
  let overall_scores := scanned.1.1
  let sector_scores := scanned.1.2
  let total_articles := scanned.2.1
  if total_articles = 0 then create_empty_daily_record target_date
  else
    let overall_sentiment : ℚ :=
      if overall_scores.isEmpty then 0 else listMean overall_scores
    { date := target_date
      overallSentimentScore := py_round3 overall_sentiment
      articlesAnalyzed := total_articles
      sectorBreakdown := SECTORS.map (fun sector =>
        (sector,
         if (sector_scores sector).isEmpty then 0
         else py_round3 (listMean (sector_scores sector))))
      processingTime := some processing_now
      batchesProcessed := some ((total_articles + batch_size - 1) / batch_size)
      note := none
      error := none }

end DailyAnalyticsHardened

/-- The realtime sentiment record written to `market_status/current_sentiment`
(all three writers emit the same shape); `lastUpdated` is the write-time
sentinel as in `DailyRecord`, and `error` is set only by the except branch of
`SentimentAnalytics.calculate_real_time_sentiment`. -/
structure RealtimeRecord where
  averageScore : ℚ
  articlesAnalyzed : Nat
  timeWindow : String
  error : Option String
deriving DecidableEq

namespace SentimentAnalytics

/-- Embeds the success path of
`SentimentAnalytics.calculate_real_time_sentiment`
(src/serverless/sentiment_analytics.py lines 170-212): the articles of the
trailing 6-hour window are scored (sentiment defaulted to Neutral) and the
rounded mean is published; an empty window publishes the neutral default. -/
def calculate_real_time_sentiment (articles : List StoredArticle) : RealtimeRecord :=
  if articles.isEmpty then
    { averageScore := 0, articlesAnalyzed := 0, timeWindow := "6 hours", error := none }
  else
    { averageScore := py_round3 (listMean (articles.map
        (fun a => sentiment_to_score (a.sentiment.getD "Neutral"))))
      articlesAnalyzed := articles.length
      timeWindow := "6 hours"
      error := none }

/-- Embeds the except branch of `calculate_real_time_sentiment`
(src/serverless/sentiment_analytics.py lines 214-222). -/
def real_time_error_record (message : String) : RealtimeRecord :=
  { averageScore := 0, articlesAnalyzed := 0, timeWindow := "6 hours", error := some message }

end SentimentAnalytics

namespace Pipeline

/-- Embeds `Pipeline.update_realtime_sentiment`
(src/pipeline/main.py lines 161-179): score every article of the 6-hour
window, average (0.0 when the window is empty), round to 3 decimals and
publish. -/
def update_realtime_sentiment (articles : List StoredArticle) : RealtimeRecord :=
  let scores := articles.map (fun a => sentiment_to_score (a.sentiment.getD "Neutral"))
  let avg : ℚ := if scores.isEmpty then 0 else listMean scores
  { averageScore := py_round3 avg
    articlesAnalyzed := articles.length
    timeWindow := "6 hours"
    error := none }

end Pipeline

/-- A concrete candidate article that passes every `ArticleModel` constraint
and is returned unchanged by the validators. -/
def exampleArticle : RawArticle :=
  { headline := "RBI holds rates"
    source := "Moneycontrol"
    url := "https://example.com/rbi"
    summary := "The central bank held rates steady."
    sentiment := "Positive"
    tickers := []
    sectors := [] }

/-- A concrete candidate article that fails validation: its sentiment label is
outside the closed enum. -/
def invalidArticle : RawArticle :=
  { exampleArticle with sentiment := "Bullish", url := "https://example.com/other" }

/-- C8 counterexample: the claim says the scoring functions return 0 for any
string other than the exact labels Positive, Negative, Neutral; but every
variant lower-cases first, so the distinct string POSITIVE scores +1, not 0. -/
theorem C8_score_counterexample :
    Pipeline.sentiment_to_score "POSITIVE" = 1 ∧
    "POSITIVE" ≠ "Positive" ∧ "POSITIVE" ≠ "Negative" ∧ "POSITIVE" ≠ "Neutral" ∧
    DailyAnalytics.sentiment_to_score "POSITIVE" = 1 ∧
    DailyAnalyticsHardened.sentiment_to_score "POSITIVE" = 1 ∧
    SentimentAnalytics.sentiment_to_score "POSITIVE" = 1 := by
  decide

/-- C8 (amended): the scoring function shared by the pipeline, the daily
scanners and the rolling aggregator is case-insensitive: it returns +1 exactly
when the lower-cased input is positive, -1 when it is negative, and 0 for
every other string; on the exact labels it gives +1, -1, 0 with
score(Positive) > score(Neutral) > score(Negative), and all four variants
agree on every input. -/
theorem C8_score_amended :
    (∀ s : String,
      DailyAnalytics.sentiment_to_score s = Pipeline.sentiment_to_score s ∧
      DailyAnalyticsHardened.sentiment_to_score s = Pipeline.sentiment_to_score s ∧
      SentimentAnalytics.sentiment_to_score s = Pipeline.sentiment_to_score s) ∧
    Pipeline.sentiment_to_score "Positive" = 1 ∧
    Pipeline.sentiment_to_score "Negative" = -1 ∧
    Pipeline.sentiment_to_score "Neutral" = 0 ∧
    Pipeline.sentiment_to_score "Neutral" < Pipeline.sentiment_to_score "Positive" ∧
    Pipeline.sentiment_to_score "Negative" < Pipeline.sentiment_to_score "Neutral" ∧
    (∀ s : String, pyLower s ≠ "positive" → pyLower s ≠ "negative" →
      Pipeline.sentiment_to_score s = 0) := by
  refine ⟨fun s => ⟨rfl, rfl, rfl⟩, by decide, by decide, by decide, by decide, by decide, ?_⟩
  intro s hpos hneg
  unfold Pipeline.sentiment_to_score
  rw [if_neg hpos, if_neg hneg]

/-- C8 witness: the amended theorem applied to the concrete non-label string
Bullish. -/
theorem C8_score_amended_witness :
    Pipeline.sentiment_to_score "Bullish" = 0 :=
  C8_score_amended.2.2.2.2.2.2 "Bullish" (by decide) (by decide)

/-- C1 counterexample: with an empty 24-hour lookback set, a batch holding the
same novel article twice passes the duplicate filter twice in both variants,
and the hardened run admits (saves) it twice — not exactly once as claimed:
the filter never adds the URL to the in-memory set during the pass. -/
theorem C1_dedup_counterexample :
    NewsPipelineHardenedWithSentiment.filter_new_articles [] [exampleArticle, exampleArticle]
      = [exampleArticle, exampleArticle] ∧
    Pipeline.filter_new [] [exampleArticle, exampleArticle]
      = [exampleArticle, exampleArticle] ∧
    NewsPipelineHardenedWithSentiment.run (.ok []) (.ok [exampleArticle, exampleArticle])
      = { fetched := 2, new_articles := 2, analyzed := 2, saved := 2, errors := 0 } := by
  decide

/-- C1 (amended): a candidate whose URL is in the lookback set (or empty) is
rejected; a candidate whose URL is absent from the lookback set is admitted at
every occurrence in the batch — the filter does not update the in-memory set
while filtering, so a novel URL occurring twice in one batch is admitted
twice. Both variants compute the same filter. -/
theorem C1_dedup_amended :
    ∀ (existing_urls : List String) (articles : List RawArticle),
      (∀ a ∈ NewsPipelineHardenedWithSentiment.filter_new_articles existing_urls articles,
        a.url ∉ existing_urls ∧ a.url ≠ "") ∧
      (∀ a : RawArticle, a.url ≠ "" → a.url ∉ existing_urls →
        (NewsPipelineHardenedWithSentiment.filter_new_articles existing_urls articles).count a
          = articles.count a) ∧
      Pipeline.filter_new existing_urls articles
        = NewsPipelineHardenedWithSentiment.filter_new_articles existing_urls articles := by
  intro existing_urls articles
  induction articles with
  | nil => exact ⟨fun a h => absurd h (List.not_mem_nil a), fun a _ _ => rfl, rfl⟩
  | cons b rest ih =>
    obtain ⟨ih1, ih2, ih3⟩ := ih
    refine ⟨?_, ?_, ?_⟩
    · intro a ha
      unfold NewsPipelineHardenedWithSentiment.filter_new_articles at ha
      by_cases hb : b.url ≠ "" ∧ b.url ∉ existing_urls
      · rw [if_pos hb] at ha
        rcases List.mem_cons.mp ha with h | h
        · subst h; exact ⟨hb.2, hb.1⟩
        · exact ih1 a h
      · rw [if_neg hb] at ha
        exact ih1 a ha
    · intro a hne hnotin
      unfold NewsPipelineHardenedWithSentiment.filter_new_articles
      by_cases hb : b.url ≠ "" ∧ b.url ∉ existing_urls
      · rw [if_pos hb, List.count_cons, List.count_cons, ih2 a hne hnotin]
      · rw [if_neg hb]
        have hab : a ≠ b := by
          intro h
          exact hb ⟨by rw [← h]; exact hne, by rw [← h]; exact hnotin⟩
        rw [List.count_cons, ih2 a hne hnotin]
        simp [Ne.symm hab]
    · unfold Pipeline.filter_new NewsPipelineHardenedWithSentiment.filter_new_articles
      by_cases hb : b.url ≠ "" ∧ b.url ∉ existing_urls
      · rw [if_pos hb, if_pos hb, ih3]
      · rw [if_neg hb, if_neg hb, ih3]

/-- C1 witness: the amended theorem at a concrete lookback set and batch. -/
theorem C1_dedup_amended_witness :
    (NewsPipelineHardenedWithSentiment.filter_new_articles ["https://example.com/old"]
      [exampleArticle, exampleArticle]).count exampleArticle
      = ([exampleArticle, exampleArticle] : List RawArticle).count exampleArticle :=
  (C1_dedup_amended ["https://example.com/old"] [exampleArticle, exampleArticle]).2.1
    exampleArticle (by decide) (by decide)

/-- Helper: pydantic list validation fails as a whole as soon as one item
fails. -/
theorem validate_article_list_eq_none_of_mem
    {batch : List RawArticle} {a : RawArticle} (ha : a ∈ batch)
    (hfail : NewsPipelineHardenedWithSentiment.ArticleModel_validate a = none) :
    NewsPipelineHardenedWithSentiment.validate_article_list batch = none := by
  induction batch with
  | nil => exact absurd ha (List.not_mem_nil a)
  | cons b rest ih =>
    unfold NewsPipelineHardenedWithSentiment.validate_article_list
    rcases List.mem_cons.mp ha with h | h
    · subst h
      rw [hfail]
    · rw [ih h]
      rcases NewsPipelineHardenedWithSentiment.ArticleModel_validate b with _ | v <;> rfl

/-- C2 counterexample: a batch holding one valid and one invalid candidate is
rejected wholesale — batch validation returns the empty list, dropping the
passing item, instead of returning the passing item and reporting the failing
one per item. -/
theorem C2_lenient_counterexample :
    NewsPipelineHardenedWithSentiment.ArticleModel_validate exampleArticle
      = some exampleArticle ∧
    NewsPipelineHardenedWithSentiment.ArticleModel_validate invalidArticle = none ∧
    NewsPipelineHardenedWithSentiment.parse_and_validate_response
      [exampleArticle, invalidArticle] = [] := by
  decide

/-- C2 (amended): batch validation is strict all-or-nothing, not lenient
per-item: if any single item of the batch fails validation the whole batch is
discarded and the empty list is returned; only when every item passes (and the
batch is within the 50-item bound) are the validated items returned. -/
theorem C2_batch_validation_amended :
    ∀ (batch : List RawArticle),
      ((∃ a ∈ batch, NewsPipelineHardenedWithSentiment.ArticleModel_validate a = none) →
        NewsPipelineHardenedWithSentiment.parse_and_validate_response batch = []) ∧
      (∀ validated : List RawArticle, batch.length ≤ 50 →
        NewsPipelineHardenedWithSentiment.validate_article_list batch = some validated →
        NewsPipelineHardenedWithSentiment.parse_and_validate_response batch = validated) := by
  intro batch
  constructor
  · rintro ⟨a, ha, hfail⟩
    unfold NewsPipelineHardenedWithSentiment.parse_and_validate_response
    rw [validate_article_list_eq_none_of_mem ha hfail]
    split <;> rfl
  · intro validated hlen hval
    unfold NewsPipelineHardenedWithSentiment.parse_and_validate_response
    rw [if_pos hlen, hval]

/-- C2 witness: the amended theorem at the concrete mixed batch. -/
theorem C2_batch_validation_amended_witness :
    NewsPipelineHardenedWithSentiment.parse_and_validate_response
      [exampleArticle, invalidArticle] = [] :=
  (C2_batch_validation_amended [exampleArticle, invalidArticle]).1
    ⟨invalidArticle, by decide, by decide⟩

/-- C7 counterexample: in the pipeline variant the 24-hour load has no
exception handler of its own, so a failing load aborts the whole try block:
the generative fetch never runs and nothing is admitted (stats stay zero with
the error counted), even though the same response with a successful load
admits one article. The run is not continued fail-open as claimed. -/
theorem C7_fail_open_counterexample :
    Pipeline.run (.error "firestore unavailable") (.ok [exampleArticle])
      = { fetched := 0, new_articles := 0, saved := 0, errors := 1 } ∧
    Pipeline.run (.ok []) (.ok [exampleArticle])
      = { fetched := 1, new_articles := 1, saved := 1, errors := 0 } := by
  decide

/-- C7 (amended): the hardened variant is fail-open — a failed 24-hour load
yields the empty deduplication set and the run proceeds exactly as it would
with an empty set; the pipeline variant instead aborts the ingestion on a
failed load: the run-level handler absorbs the exception and returns zero
stats with the error counted, so nothing is fetched or admitted. -/
theorem C7_fail_open_amended :
    ∀ (e : String) (response : Except String (List RawArticle)),
      NewsPipelineHardenedWithSentiment.load_existing_urls (.error e) = [] ∧
      NewsPipelineHardenedWithSentiment.run (.error e) response
        = NewsPipelineHardenedWithSentiment.run (.ok []) response ∧
      Pipeline.run (.error e) response
        = { fetched := 0, new_articles := 0, saved := 0, errors := 1 } := by
  intro e response
  exact ⟨rfl, rfl, rfl⟩

/-- C3: the spec invariant says a written cache entry stays retrievable by the
backend past the 300-second TTL (freshness decided by the cache layer); the
code instead writes with Redis SETEX, whose key-level expiry makes the backend
itself evict the value at the TTL: the payload written at time 0 is served at
age 299 but gone at age 300, and the stale lookup at age 301 finds nothing.
This contradicts the docstring of `_get_stale_data` (returns any cached data,
even if expired). -/
theorem C3_ttl_retrievability_bug :
    MarketDataAPIHardened.save_cached_data 0 "payload"
      = some { value := "payload", storedAt := 0, ttl := 300 } ∧
    redis_get (MarketDataAPIHardened.save_cached_data 0 "payload") 299 = some "payload" ∧
    redis_get (MarketDataAPIHardened.save_cached_data 0 "payload") 300 = none ∧
    MarketDataAPIHardened.get_stale_data (MarketDataAPIHardened.save_cached_data 0 "payload") 301
      = none := by
  decide

/-- C4: at the failing input — an entry written at time 0 with the 300-second
TTL, queried at time 301 with the upstream fetch failing — the code returns
the service-unavailable object rather than the old value marked Stale, because
the stale lookup repeats the same Redis GET that already returned nil; indeed
no input whatsoever can produce the Stale tier, so the ladder degenerates to
2-tier fresh/unavailable. Tiers (a), (b) and (d) behave as claimed. -/
theorem C4_ladder_bug :
    MarketDataAPIHardened.get_market_data
        (some { value := "old", storedAt := 0, ttl := 300 }) 301 none
      = (MarketDataAPIHardened.MarketResult.unavailable,
         some { value := "old", storedAt := 0, ttl := 300 }, true) ∧
    (∀ (st : RedisState) (now : Nat) (fetch_fresh : Option String) (v : String),
      (MarketDataAPIHardened.get_market_data st now fetch_fresh).1
        ≠ MarketDataAPIHardened.MarketResult.stale v) ∧
    MarketDataAPIHardened.get_market_data
        (some { value := "cached", storedAt := 0, ttl := 300 }) 299 none
      = (MarketDataAPIHardened.MarketResult.fresh "cached",
         some { value := "cached", storedAt := 0, ttl := 300 }, false) ∧
    (∀ (now : Nat) (fresh_data : String),
      MarketDataAPIHardened.get_market_data none now (some fresh_data)
        = (MarketDataAPIHardened.MarketResult.fresh fresh_data,
           MarketDataAPIHardened.save_cached_data now fresh_data, true)) ∧
    (∀ (now : Nat),
      MarketDataAPIHardened.get_market_data none now none
        = (MarketDataAPIHardened.MarketResult.unavailable, none, true)) := by
  refine ⟨by decide, ?_, by decide, fun now fresh_data => rfl, fun now => rfl⟩
  intro st now fetch_fresh v
  unfold MarketDataAPIHardened.get_market_data
  unfold MarketDataAPIHardened.get_cached_data MarketDataAPIHardened.get_stale_data
  rcases h : redis_get st now with _ | cached
  · rcases fetch_fresh with _ | fresh_data
    · simp
    · simp
  · simp

namespace DailyAnalyticsHardened

/-- Helper: folding a concatenation of pages equals folding the pages in
sequence. -/
theorem process_article_batch_append (xs ys : List StoredArticle) :
    ∀ acc, process_article_batch (xs ++ ys) acc
      = process_article_batch ys (process_article_batch xs acc) := by
  induction xs with
  | nil => intro acc; rfl
  | cons a rest ih =>
    rintro ⟨overall_scores, sector_scores⟩
    simp only [List.cons_append, process_article_batch]
    exact ih _

/-- Helper: the closed form of the paginated scan loop — it folds exactly the
whole remaining range, counts every document once, and issues
`remaining.length / page_size + 1` further page queries. -/
theorem scan_loop_spec (page_size : Nat) (hP : 0 < page_size) :
    ∀ (remaining : List StoredArticle) (acc : List Int × (String → List Int))
      (total_articles queries : Nat),
      scan_loop page_size remaining acc total_articles queries =
        (process_article_batch remaining acc,
         total_articles + remaining.length,
         queries + remaining.length / page_size + 1) := by
  suffices H : ∀ (n : Nat) (remaining : List StoredArticle), remaining.length ≤ n →
      ∀ (acc : List Int × (String → List Int)) (total_articles queries : Nat),
      scan_loop page_size remaining acc total_articles queries =
        (process_article_batch remaining acc,
         total_articles + remaining.length,
         queries + remaining.length / page_size + 1) by
    exact fun remaining acc t q => H remaining.length remaining le_rfl acc t q
  intro n
  induction n with
  | zero =>
    intro remaining hlen acc t q
    have hnil : remaining = [] := List.length_eq_zero.mp (Nat.le_zero.mp hlen)
    subst hnil
    rw [scan_loop]
    simp [process_article_batch]
  | succ n ih =>
    intro remaining hlen acc t q
    rw [scan_loop]
    by_cases hemp : (remaining.take page_size).isEmpty
    · have : remaining = [] := by
        rcases List.take_eq_nil_iff.mp (List.isEmpty_iff.mp hemp) with h | h
        · exact absurd h (Nat.pos_iff_ne_zero.mp hP)
        · exact h
      subst this
      simp [process_article_batch]
    · rw [if_neg hemp]
      by_cases hshort : (remaining.take page_size).length < page_size
      · rw [if_pos hshort]
        have hlt : remaining.length < page_size := by
          rw [List.length_take] at hshort
          rcases Nat.lt_or_ge remaining.length page_size with h | h
          · exact h
          · exact absurd hshort (by simp [Nat.min_eq_left h, lt_irrefl])
        rw [List.take_of_length_le (Nat.le_of_lt hlt),
            Nat.div_eq_of_lt hlt]
      · rw [if_neg hshort]
        have hfull : (remaining.take page_size).length = page_size := by
          rw [List.length_take]
          rcases Nat.lt_or_ge remaining.length page_size with h | h
          · exact absurd (by rw [List.length_take]; omega) hshort
          · exact Nat.min_eq_left h
        have hge : page_size ≤ remaining.length := by
          rw [List.length_take] at hfull
          omega
        have hdroplen : (remaining.drop page_size).length = remaining.length - page_size := by
          simp
        rw [ih (remaining.drop page_size) (by rw [hdroplen]; omega) _ _ _]
        have h1 : process_article_batch (remaining.drop page_size)
            (process_article_batch (remaining.take page_size) acc)
            = process_article_batch remaining acc := by
          rw [← process_article_batch_append, List.take_append_drop]
        rw [h1, hfull, hdroplen]
        have hdiv : remaining.length / page_size
            = (remaining.length - page_size) / page_size + 1 :=
          Nat.div_eq_sub_div hP hge
        refine congrArg₂ (fun b c => (process_article_batch remaining acc, b, c)) ?_ ?_
        · omega
        · rw [hdiv]
          omega

/-- Helper: an article whose sector list avoids a given sector leaves that
sector's score list untouched. -/
theorem append_sector_scores_not_mem (sector : String) :
    ∀ (sectors : List String) (score : Int) (sector_scores : String → List Int),
      sector ∉ sectors →
      append_sector_scores sectors score sector_scores sector = sector_scores sector := by
  intro sectors
  induction sectors with
  | nil => intro score sector_scores _; rfl
  | cons s rest ih =>
    intro score sector_scores hnot
    have hs : sector ≠ s := fun h => hnot (h ▸ List.mem_cons_self s rest)
    have hrest : sector ∉ rest := fun h => hnot (List.mem_cons_of_mem s h)
    unfold append_sector_scores
    by_cases hmem : s ∈ SECTORS
    · rw [if_pos hmem, ih score _ hrest, if_neg hs]
    · rw [if_neg hmem, ih score _ hrest]

/-- Helper: if no scanned article carries a given sector tag, its score list
stays as initialized. -/
theorem process_batch_sector_untouched (sector : String) :
    ∀ (articles : List StoredArticle) (acc : List Int × (String → List Int)),
      (∀ a ∈ articles, sector ∉ a.sectors) →
      (process_article_batch articles acc).2 sector = acc.2 sector := by
  intro articles
  induction articles with
  | nil => intro acc _; rfl
  | cons a rest ih =>
    rintro ⟨overall_scores, sector_scores⟩ hnone
    simp only [process_article_batch]
    rw [ih _ (fun b hb => hnone b (List.mem_cons_of_mem a hb))]
    exact append_sector_scores_not_mem sector a.sectors _ sector_scores
      (hnone a (List.mem_cons_self a rest))

end DailyAnalyticsHardened

/-- Helper: membership in the insertion step of the publishedAt sort. -/
theorem mem_insert_by_published (b a : StoredArticle) :
    ∀ (l : List StoredArticle), b ∈ insert_by_published a l ↔ b = a ∨ b ∈ l := by
  intro l
  induction l with
  | nil => simp [insert_by_published]
  | cons c rest ih =>
    unfold insert_by_published
    by_cases h : a.publishedAt < c.publishedAt
    · rw [if_pos h]
      simp [List.mem_cons]
    · rw [if_neg h]
      simp only [List.mem_cons, ih]
      tauto

/-- Helper: the publishedAt sort is a permutation in the membership sense. -/
theorem mem_sort_by_published (b : StoredArticle) :
    ∀ (l : List StoredArticle), b ∈ sort_by_published l ↔ b ∈ l := by
  intro l
  induction l with
  | nil => simp [sort_by_published]
  | cons a rest ih =>
    unfold sort_by_published
    rw [mem_insert_by_published, ih]
    simp [List.mem_cons]

/-- Helper: sorting preserves length. -/
theorem length_sort_by_published :
    ∀ (l : List StoredArticle), (sort_by_published l).length = l.length := by
  have hins : ∀ (a : StoredArticle) (l : List StoredArticle),
      (insert_by_published a l).length = l.length + 1 := by
    intro a l
    induction l with
    | nil => rfl
    | cons c rest ih =>
      unfold insert_by_published
      by_cases h : a.publishedAt < c.publishedAt
      · rw [if_pos h]
        simp
      · rw [if_neg h]
        simp [ih]
  intro l
  induction l with
  | nil => rfl
  | cons a rest ih => simp [sort_by_published, hins, ih]

namespace DailyAnalyticsHardened

/-- Helper: every overall score accumulated by the fold lies in [-1, 1]. -/
theorem process_batch_overall_bounds :
    ∀ (articles : List StoredArticle) (acc : List Int × (String → List Int)),
      (∀ x ∈ acc.1, -1 ≤ x ∧ x ≤ 1) →
      ∀ x ∈ (process_article_batch articles acc).1, -1 ≤ x ∧ x ≤ 1 := by
  intro articles
  induction articles with
  | nil => intro acc h; exact h
  | cons a rest ih =>
    rintro ⟨overall_scores, sector_scores⟩ h
    simp only [process_article_batch]
    apply ih
    intro x hx
    rcases List.mem_append.mp hx with hx | hx
    · exact h x hx
    · rw [List.mem_singleton.mp hx, (score_variants_agree _).2.1]
      exact score_abs_le_one _

/-- Helper: appending one score keeps every per-sector list inside [-1, 1]. -/
theorem append_sector_scores_bounds :
    ∀ (sectors : List String) (score : Int) (f : String → List Int),
      (∀ s x, x ∈ f s → -1 ≤ x ∧ x ≤ 1) → -1 ≤ score → score ≤ 1 →
      ∀ s x, x ∈ append_sector_scores sectors score f s → -1 ≤ x ∧ x ≤ 1 := by
  intro sectors
  induction sectors with
  | nil => intro score f hf _ _ s x hx; exact hf s x hx
  | cons sec rest ih =>
    intro score f hf hlo hhi s x hx
    unfold append_sector_scores at hx
    by_cases hmem : sec ∈ SECTORS
    · rw [if_pos hmem] at hx
      refine ih score _ ?_ hlo hhi s x hx
      intro s2 y hy
      by_cases hs2 : s2 = sec
      · rw [if_pos hs2] at hy
        rcases List.mem_append.mp hy with hy | hy
        · exact hf s2 y hy
        · rw [List.mem_singleton.mp hy]; exact ⟨hlo, hhi⟩
      · rw [if_neg hs2] at hy
        exact hf s2 y hy
    · rw [if_neg hmem] at hx
      exact ih score f hf hlo hhi s x hx

/-- Helper: every per-sector score accumulated by the fold lies in [-1, 1]. -/
theorem process_batch_sector_bounds :
    ∀ (articles : List StoredArticle) (acc : List Int × (String → List Int)),
      (∀ s x, x ∈ acc.2 s → -1 ≤ x ∧ x ≤ 1) →
      ∀ s x, x ∈ (process_article_batch articles acc).2 s → -1 ≤ x ∧ x ≤ 1 := by
  intro articles
  induction articles with
  | nil => intro acc h; exact h
  | cons a rest ih =>
    rintro ⟨overall_scores, sector_scores⟩ h
    simp only [process_article_batch]
    apply ih
    intro s x hx
    refine append_sector_scores_bounds a.sectors _ sector_scores h ?_ ?_ s x hx
    · rw [(score_variants_agree _).2.1]; exact (score_abs_le_one _).1
    · rw [(score_variants_agree _).2.1]; exact (score_abs_le_one _).2

end DailyAnalyticsHardened

/-- Helper: sum bounds for lists of scores. -/
theorem list_sum_bounds :
    ∀ (l : List Int), (∀ x ∈ l, -1 ≤ x ∧ x ≤ 1) →
      -(l.length : Int) ≤ l.sum ∧ l.sum ≤ l.length := by
  intro l
  induction l with
  | nil => intro _; simp
  | cons x rest ih =>
    intro h
    have hx := h x (List.mem_cons_self x rest)
    have hrest := ih (fun y hy => h y (List.mem_cons_of_mem x hy))
    simp only [List.sum_cons, List.length_cons]
    push_cast
    constructor <;> linarith [hrest.1, hrest.2, hx.1, hx.2]

/-- Helper: the mean of a non-empty list of scores in [-1, 1] lies in [-1, 1]. -/
theorem listMean_bounds (l : List Int) (hne : l ≠ [])
    (h : ∀ x ∈ l, -1 ≤ x ∧ x ≤ 1) : -1 ≤ listMean l ∧ listMean l ≤ 1 := by
  have hlen : 0 < (l.length : ℚ) := by
    have := List.length_pos.mpr hne
    exact_mod_cast this
  obtain ⟨hlo, hhi⟩ := list_sum_bounds l h
  have hlo2 : -(l.length : ℚ) ≤ (l.sum : ℚ) := by exact_mod_cast hlo
  have hhi2 : (l.sum : ℚ) ≤ (l.length : ℚ) := by exact_mod_cast hhi
  unfold listMean
  constructor
  · rw [le_div_iff₀ hlen]
    linarith
  · rw [div_le_one hlen]
    exact hhi2

/-- Helper: half-even rounding never overshoots an integer upper bound. -/
theorem round_half_even_le {x : ℚ} {B : ℤ} (h : x ≤ (B : ℚ)) :
    round_half_even x ≤ B := by
  have hfl : ⌊x⌋ ≤ B := by
    have := Int.floor_le_floor h
    rwa [Int.floor_intCast] at this
  have hkey : ¬(x - ⌊x⌋ < 1/2) → ⌊x⌋ + 1 ≤ B := by
    intro h1
    push_neg at h1
    by_contra hc
    push_neg at hc
    have heq : ⌊x⌋ = B := le_antisymm hfl (by omega)
    have hxB : x ≤ (⌊x⌋ : ℚ) := by rw [heq]; exact h
    have : (1:ℚ)/2 ≤ 0 := by linarith
    norm_num at this
  unfold round_half_even
  split_ifs with h1 h2 h3
  · exact hfl
  · exact hkey h1
  · exact hfl
  · exact hkey h1

/-- Helper: half-even rounding never undershoots an integer lower bound. -/
theorem round_half_even_ge {x : ℚ} {B : ℤ} (h : (B : ℚ) ≤ x) :
    B ≤ round_half_even x := by
  have hfl : B ≤ ⌊x⌋ := Int.le_floor.mpr h
  unfold round_half_even
  split_ifs <;> omega

/-- Helper: rounding to three decimals stays inside [-1, 1]. -/
theorem py_round3_bounds {x : ℚ} (hlo : -1 ≤ x) (hhi : x ≤ 1) :
    -1 ≤ py_round3 x ∧ py_round3 x ≤ 1 := by
  have h1 : x * 1000 ≤ ((1000 : ℤ) : ℚ) := by push_cast; linarith
  have h2 : ((-1000 : ℤ) : ℚ) ≤ x * 1000 := by push_cast; linarith
  have hu := round_half_even_le h1
  have hl := round_half_even_ge h2
  have hu2 : ((round_half_even (x * 1000)) : ℚ) ≤ 1000 := by exact_mod_cast hu
  have hl2 : (-1000 : ℚ) ≤ ((round_half_even (x * 1000)) : ℚ) := by exact_mod_cast hl
  unfold py_round3
  constructor
  · rw [le_div_iff₀ (by norm_num : (0:ℚ) < 1000)]
    linarith
  · rw [div_le_one (by norm_num : (0:ℚ) < 1000)]
    linarith

namespace DailyAnalyticsHardened

/-- Helper: closed form of the batched daily aggregation — the paginated scan
folds exactly the ordered range-query result. -/
theorem calculate_spec (store : List StoredArticle) (target_date : String)
    (start_time end_time : Nat) (processing_now : String) :
    calculate_daily_analytics_batched store target_date start_time end_time processing_now =
      (if (sort_by_published (store.filter
            (fun a => start_time ≤ a.publishedAt ∧ a.publishedAt < end_time))).length = 0 then
        create_empty_daily_record target_date
      else
        let matching := sort_by_published
          (store.filter (fun a => start_time ≤ a.publishedAt ∧ a.publishedAt < end_time))
        let folded := process_article_batch matching ([], fun _ => [])
        { date := target_date
          overallSentimentScore :=
            py_round3 (if folded.1.isEmpty then 0 else listMean folded.1)
          articlesAnalyzed := matching.length
          sectorBreakdown := SECTORS.map (fun sector =>
            (sector,
             if (folded.2 sector).isEmpty then 0
             else py_round3 (listMean (folded.2 sector))))
          processingTime := some processing_now
          batchesProcessed := some ((matching.length + batch_size - 1) / batch_size)
          note := none
          error := none }) := by
  unfold calculate_daily_analytics_batched
  simp only [scan_loop_spec batch_size (by norm_num [batch_size]), Nat.zero_add]

end DailyAnalyticsHardened

/-- C5 counterexample: on an empty store range (N = 0) with the fixed page
size 1000, the scanner issues one page query, not the claimed
ceil(N / P) = 0. -/
theorem C5_page_count_counterexample :
    (DailyAnalyticsHardened.scan_loop 1000 ([] : List StoredArticle)
        ([], fun _ => []) 0 0).2.2 = 1 ∧
    (0 + 1000 - 1) / 1000 = 0 := by
  constructor
  · rw [DailyAnalyticsHardened.scan_loop_spec 1000 (by norm_num)]
    norm_num
  · norm_num

/-- C5 (amended): for every store range of N records and every positive page
size P, the scanner terminates and issues exactly N / P + 1 page queries
(integer division) — that is ceil(N / P) when P does not divide N, and one
more than ceil(N / P) when N is 0 or an exact multiple of P, because a full
final page forces one extra query that comes back empty (or short). -/
theorem C5_page_count_amended :
    ∀ (page_size : Nat), 0 < page_size →
    ∀ (remaining : List StoredArticle) (acc : List Int × (String → List Int))
      (total_articles queries : Nat),
      (DailyAnalyticsHardened.scan_loop page_size remaining acc total_articles queries).2.2
        = queries + remaining.length / page_size + 1 := by
  intro page_size hP remaining acc total_articles queries
  rw [DailyAnalyticsHardened.scan_loop_spec page_size hP]

/-- C5 witness: the amended count at page size 2 over three records — two page
queries (a full page and a short page). -/
theorem C5_page_count_amended_witness :
    (DailyAnalyticsHardened.scan_loop 2
        [{ sentiment := some "Positive", sectors := [], publishedAt := 1 },
         { sentiment := some "Negative", sectors := [], publishedAt := 2 },
         { sentiment := none, sectors := [], publishedAt := 3 }]
        ([], fun _ => []) 0 0).2.2 = 0 + 3 / 2 + 1 :=
  C5_page_count_amended 2 (by norm_num) _ _ 0 0

/-- Helper: the record with its processing-time stamp cleared. -/
def DailyRecord.clearProcessingTime (r : DailyRecord) : DailyRecord :=
  { r with processingTime := none }

/-- Helper: a store range with at least one matching record produces a record
stamped with the processing time of that run. -/
theorem calculate_processingTime_of_match (store : List StoredArticle)
    (target_date : String) (start_time end_time : Nat) (processing_now : String)
    (h : (sort_by_published (store.filter
        (fun a => start_time ≤ a.publishedAt ∧ a.publishedAt < end_time))).length ≠ 0) :
    (DailyAnalyticsHardened.calculate_daily_analytics_batched store target_date
        start_time end_time processing_now).processingTime = some processing_now := by
  rw [DailyAnalyticsHardened.calculate_spec, if_neg h]

/-- C6 counterexample: two runs of the batched scanner over the same unchanged
one-article store differ beyond the last-updated field — the hardened variant
also stamps `processingTime` with the wall clock of the run, so the records
from two runs at different instants are not identical. -/
theorem C6_idempotence_counterexample :
    DailyAnalyticsHardened.calculate_daily_analytics_batched
        [{ sentiment := some "Positive", sectors := [], publishedAt := 5 }]
        "2024-01-05" 0 10 "2024-01-05T23:55:00"
      ≠ DailyAnalyticsHardened.calculate_daily_analytics_batched
        [{ sentiment := some "Positive", sectors := [], publishedAt := 5 }]
        "2024-01-05" 0 10 "2024-01-05T23:56:00" := by
  intro hcontra
  have h1 := calculate_processingTime_of_match
    [{ sentiment := some "Positive", sectors := [], publishedAt := 5 }]
    "2024-01-05" 0 10 "2024-01-05T23:55:00" (by decide)
  have h2 := calculate_processingTime_of_match
    [{ sentiment := some "Positive", sectors := [], publishedAt := 5 }]
    "2024-01-05" 0 10 "2024-01-05T23:56:00" (by decide)
  rw [hcontra, h2] at h1
  exact absurd h1 (by decide)

/-- C6 (amended): two runs of the batched scanner over the same unchanged
store range yield identical records up to the run timestamps: every field
except the processing-time stamp (and the store-resolved last-updated
sentinel) agrees, i.e. the records are equal after clearing `processingTime`. -/
theorem C6_idempotence_amended :
    ∀ (store : List StoredArticle) (target_date : String)
      (start_time end_time : Nat) (t1 t2 : String),
      DailyRecord.clearProcessingTime
        (DailyAnalyticsHardened.calculate_daily_analytics_batched store target_date
          start_time end_time t1)
      = DailyRecord.clearProcessingTime
        (DailyAnalyticsHardened.calculate_daily_analytics_batched store target_date
          start_time end_time t2) := by
  intro store target_date start_time end_time t1 t2
  rw [DailyAnalyticsHardened.calculate_spec store target_date start_time end_time t1,
      DailyAnalyticsHardened.calculate_spec store target_date start_time end_time t2]
  split <;> rfl

/-- A concrete one-article store: a Positive article tagged IT inside the
queried day. -/
def exampleStore : List StoredArticle :=
  [{ sentiment := some "Positive", sectors := ["IT"], publishedAt := 5 }]

/-- C9: for every store and day range, the published record's sector breakdown
enumerates exactly the 10 fixed sectors in the allow-list order, a sector with
no observation in the range maps to 0.0, and the empty-day and error records
map every one of the 10 sectors to 0.0. -/
theorem C9_sector_breakdown :
    ∀ (store : List StoredArticle) (target_date : String) (start_time end_time : Nat)
      (processing_now : String),
      SECTORS.length = 10 ∧ SECTORS.Nodup ∧
      (DailyAnalyticsHardened.calculate_daily_analytics_batched store target_date
          start_time end_time processing_now).sectorBreakdown.map Prod.fst = SECTORS ∧
      (∀ sector ∈ SECTORS,
        (∀ a ∈ store, start_time ≤ a.publishedAt → a.publishedAt < end_time →
          sector ∉ a.sectors) →
        (sector, (0 : ℚ)) ∈ (DailyAnalyticsHardened.calculate_daily_analytics_batched store
            target_date start_time end_time processing_now).sectorBreakdown) ∧
      (∀ date message,
        (DailyAnalyticsHardened.error_daily_record date message).sectorBreakdown
          = SECTORS.map (fun sector => (sector, 0))) ∧
      (∀ date,
        (DailyAnalyticsHardened.create_empty_daily_record date).sectorBreakdown
          = SECTORS.map (fun sector => (sector, 0))) := by
  intro store target_date start_time end_time processing_now
  refine ⟨by decide, by decide, ?_, ?_, fun _ _ => rfl, fun _ => rfl⟩
  · rw [DailyAnalyticsHardened.calculate_spec]
    split
    · rfl
    · rfl
  · intro sector hsec hnone
    rw [DailyAnalyticsHardened.calculate_spec]
    split
    · simp only [DailyAnalyticsHardened.create_empty_daily_record]
      exact List.mem_map_of_mem _ hsec
    · simp only []
      have huntouched : (DailyAnalyticsHardened.process_article_batch
          (sort_by_published (store.filter
            (fun a => start_time ≤ a.publishedAt ∧ a.publishedAt < end_time)))
          ([], fun _ => [])).2 sector = [] := by
        refine DailyAnalyticsHardened.process_batch_sector_untouched sector _ _ ?_
        intro a ha
        have ha2 := (mem_sort_by_published a _).mp ha
        have ha3 := List.mem_filter.mp ha2
        have hcond := of_decide_eq_true ha3.2
        exact hnone a ha3.1 hcond.1 hcond.2
      refine List.mem_map.mpr ⟨sector, hsec, ?_⟩
      rw [huntouched]
      rfl

/-- C9 witness: the theorem at the concrete one-article store — Banking
received no observation, so it maps to 0.0 in the published breakdown. -/
theorem C9_sector_breakdown_witness :
    ("Banking", (0 : ℚ)) ∈ (DailyAnalyticsHardened.calculate_daily_analytics_batched
        exampleStore "2024-01-05" 0 10 "2024-01-05T23:55:00").sectorBreakdown :=
  (C9_sector_breakdown exampleStore "2024-01-05" 0 10 "2024-01-05T23:55:00").2.2.2.1
    "Banking" (by decide) (by decide)

/-- Helper: the rounded mean of a list of scores in [-1, 1], with the empty
list defaulted to 0, lies in [-1, 1]. -/
theorem bounded_round_mean (l : List Int) (hb : ∀ x ∈ l, -1 ≤ x ∧ x ≤ 1) :
    -1 ≤ py_round3 (if l.isEmpty then 0 else listMean l) ∧
    py_round3 (if l.isEmpty then 0 else listMean l) ≤ 1 := by
  by_cases h : l.isEmpty
  · rw [if_pos h]
    exact py_round3_bounds (by norm_num) (by norm_num)
  · rw [if_neg h]
    have hne : l ≠ [] := fun hh => h (by simp [hh])
    obtain ⟨h1, h2⟩ := listMean_bounds l hne hb
    exact py_round3_bounds h1 h2

/-- C10: every published average sentiment value — the daily overall average,
every per-sector average, the rolling 6-hour average of both aggregator
variants, and the 0.0 defaults of the empty-window and error records — lies
in the closed interval [-1, 1]. -/
theorem C10_average_bounds :
    ∀ (store : List StoredArticle) (target_date : String) (start_time end_time : Nat)
      (processing_now : String),
      (-1 ≤ (DailyAnalyticsHardened.calculate_daily_analytics_batched store target_date
          start_time end_time processing_now).overallSentimentScore ∧
        (DailyAnalyticsHardened.calculate_daily_analytics_batched store target_date
          start_time end_time processing_now).overallSentimentScore ≤ 1) ∧
      (∀ p ∈ (DailyAnalyticsHardened.calculate_daily_analytics_batched store target_date
          start_time end_time processing_now).sectorBreakdown, -1 ≤ p.2 ∧ p.2 ≤ 1) ∧
      (∀ articles : List StoredArticle,
        -1 ≤ (SentimentAnalytics.calculate_real_time_sentiment articles).averageScore ∧
        (SentimentAnalytics.calculate_real_time_sentiment articles).averageScore ≤ 1) ∧
      (∀ articles : List StoredArticle,
        -1 ≤ (Pipeline.update_realtime_sentiment articles).averageScore ∧
        (Pipeline.update_realtime_sentiment articles).averageScore ≤ 1) ∧
      (∀ message, (SentimentAnalytics.real_time_error_record message).averageScore = 0) ∧
      (∀ date message,
        (DailyAnalyticsHardened.error_daily_record date message).overallSentimentScore = 0 ∧
        ∀ p ∈ (DailyAnalyticsHardened.error_daily_record date message).sectorBreakdown,
          p.2 = 0) := by
  intro store target_date start_time end_time processing_now
  refine ⟨?_, ?_, ?_, ?_, fun _ => rfl, ?_⟩
  · rw [DailyAnalyticsHardened.calculate_spec]
    split
    · simp [DailyAnalyticsHardened.create_empty_daily_record]
    · simp only []
      exact bounded_round_mean _
        (DailyAnalyticsHardened.process_batch_overall_bounds _ _ (by simp))
  · rw [DailyAnalyticsHardened.calculate_spec]
    split
    · intro p hp
      simp only [DailyAnalyticsHardened.create_empty_daily_record] at hp
      rcases List.mem_map.mp hp with ⟨sector, _, rfl⟩
      norm_num
    · intro p hp
      simp only [] at hp
      rcases List.mem_map.mp hp with ⟨sector, _, rfl⟩
      simp only []
      split
      · norm_num
      · rename_i hne
        have hb := DailyAnalyticsHardened.process_batch_sector_bounds
          (sort_by_published (store.filter
            (fun a => start_time ≤ a.publishedAt ∧ a.publishedAt < end_time)))
          ([], fun _ => []) (by simp) sector
        have hne2 : (DailyAnalyticsHardened.process_article_batch
            (sort_by_published (store.filter
              (fun a => start_time ≤ a.publishedAt ∧ a.publishedAt < end_time)))
            ([], fun _ => [])).2 sector ≠ [] := by
          intro hh
          rw [hh] at hne
          exact hne rfl
        obtain ⟨h1, h2⟩ := listMean_bounds _ hne2 hb
        exact py_round3_bounds h1 h2
  · intro articles
    unfold SentimentAnalytics.calculate_real_time_sentiment
    split
    · norm_num
    · rename_i hne
      simp only []
      have hb : ∀ x ∈ articles.map
          (fun a => SentimentAnalytics.sentiment_to_score (a.sentiment.getD "Neutral")),
          -1 ≤ x ∧ x ≤ 1 := by
        intro x hx
        rcases List.mem_map.mp hx with ⟨a, _, rfl⟩
        rw [(score_variants_agree _).2.2]
        exact score_abs_le_one _
      have hne2 : articles.map
          (fun a => SentimentAnalytics.sentiment_to_score (a.sentiment.getD "Neutral")) ≠ [] := by
        intro hh
        rcases articles with _ | ⟨a, rest⟩
        · simp at hne
        · simp at hh
      obtain ⟨h1, h2⟩ := listMean_bounds _ hne2 hb
      exact py_round3_bounds h1 h2
  · intro articles
    unfold Pipeline.update_realtime_sentiment
    simp only []
    have hb : ∀ x ∈ articles.map
        (fun a => Pipeline.sentiment_to_score (a.sentiment.getD "Neutral")),
        -1 ≤ x ∧ x ≤ 1 := by
      intro x hx
      rcases List.mem_map.mp hx with ⟨a, _, rfl⟩
      exact score_abs_le_one _
    exact bounded_round_mean _ hb
  · intro date message
    refine ⟨rfl, ?_⟩
    intro p hp
    simp only [DailyAnalyticsHardened.error_daily_record] at hp
    rcases List.mem_map.mp hp with ⟨sector, _, rfl⟩
    rfl

/-- C10 witness: the theorem at the empty store — the IT entry of the
empty-day breakdown is the 0.0 default, inside [-1, 1]. -/
theorem C10_average_bounds_witness :
    -1 ≤ (("IT", (0 : ℚ)) : String × ℚ).2 ∧ (("IT", (0 : ℚ)) : String × ℚ).2 ≤ 1 :=
  (C10_average_bounds [] "2024-01-05" 0 10 "2024-01-05T23:55:00").2.1 ("IT", 0) (by
    rw [DailyAnalyticsHardened.calculate_spec]
    simp [sort_by_published, DailyAnalyticsHardened.create_empty_daily_record, SECTORS])
